import Mathlib

/-!
Verification of the voice-agent banking demo.

The repository is a browser voice assistant whose model-invocable banking
operations live in the Conversation component (handleToolCall) and in the
mock backend (src/mock/backend.ts).  This file embeds those operations and
the transcript / session-lifecycle state updates as pure Lean functions and
proves the specified properties about them.

Modelling conventions:
- JS numbers used for money are modelled as Rat (the claims involve only
  comparison, addition and subtraction of amounts, which floats perform
  exactly on the examples used; Rat keeps arithmetic exact and decidable).
- Math.random and Date.now inside generateRandomTransactions are modelled
  by an explicit environment function from the loop index to the produced
  transaction; the loop pushes exactly one transaction per index.
- React setState calls are modelled as functional updates on an explicit
  state record; browser side effects (stopping media tracks, disconnecting
  audio nodes, closing contexts) have no representation in that record
  beyond the nulling of the corresponding refs, exactly as in the source.
- The TypeError that getMockTransactionHistory throws when its account
  type names an inherited Object.prototype property is modelled by an
  explicit result constructor of getMockTransactionHistoryJs.
-/

namespace VoiceAgent

/-- The Sender enum from types.ts: user or agent. -/
inductive Sender where
  | user
  | agent
  deriving DecidableEq, Repr

/-- A transcript message from types.ts: id, sender and text. -/
structure Message where
  id : String
  sender : Sender
  text : String
  deriving DecidableEq, Repr

/-- Transaction direction from src/mock/backend.ts (field named type there;
Lean reserves that word, so the field is kind here). -/
inductive TxKind where
  | debit
  | credit
  deriving DecidableEq, Repr

/-- MockTransaction from src/mock/backend.ts. -/
structure MockTransaction where
  id : String
  date : String
  description : String
  amount : Rat
  kind : TxKind
  deriving DecidableEq, Repr

/-- generateRandomTransactions from src/mock/backend.ts: the loop runs for
i from 0 to count-1 and pushes exactly one transaction per iteration whose
content depends on Math.random and Date.now, modelled by the environment
function env from the loop index to the transaction produced there. -/
def generateRandomTransactions (env : Nat → MockTransaction) (count : Nat) :
    List MockTransaction :=
  (List.range count).map env

/-- The module-level mockData object from src/mock/backend.ts: 20 random
checking transactions and 15 random savings transactions, fixed at load. -/
structure MockData where
  checking : List MockTransaction
  savings : List MockTransaction
  deriving DecidableEq, Repr

/-- mockData as built at module load from two randomness environments. -/
def mkMockData (envC envS : Nat → MockTransaction) : MockData :=
  { checking := generateRandomTransactions envC 20
    savings := generateRandomTransactions envS 15 }

/-- JS Array.prototype.slice with begin 0 and the given end index:
a nonnegative end takes that many elements from the front (clamped to the
length); a negative end counts from the end of the array. -/
def jsSliceTo (l : List α) (e : Int) : List α :=
  if e < 0 then l.take ((l.length : Int) + e).toNat else l.take e.toNat

/-- The property names every plain object literal inherits from
Object.prototype (the Annex B accessor names included).  Indexing mockData
with one of these yields the inherited non-nullish value, not undefined. -/
def objectPrototypeNames : List String :=
  ["constructor", "hasOwnProperty", "isPrototypeOf", "propertyIsEnumerable",
   "toLocaleString", "toString", "valueOf", "__proto__",
   "__defineGetter__", "__defineSetter__", "__lookupGetter__",
   "__lookupSetter__"]

/-- The outcome of one call to getMockTransactionHistory: either the array
the call returns, or the TypeError the call throws when the indexed value
is non-nullish but has no slice method. -/
inductive HistoryResult where
  | ok (transactions : List MockTransaction)
  | typeError
  deriving DecidableEq, Repr

/-- getMockTransactionHistory from src/mock/backend.ts:
mockData[accountType]?.slice(0, limit) || [] with the parameter default
limit = 10 modelled by an Option argument (the one call site passes the
possibly-undefined limit from the tool-call args).  The two own keys slice
their stored list.  An account type naming an inherited Object.prototype
property yields that inherited non-nullish value, so the optional chain
proceeds, its slice member is undefined, and calling it throws a
TypeError.  Any other account type yields undefined, the optional chain
short-circuits, and the alternation gives the empty array. -/
def getMockTransactionHistoryJs (data : MockData) (accountType : String)
    (limit : Option Int) : HistoryResult :=
  if accountType = "checking" then
    .ok (jsSliceTo data.checking (limit.getD 10))
  else if accountType = "savings" then
    .ok (jsSliceTo data.savings (limit.getD 10))
  else if accountType ∈ objectPrototypeNames then .typeError
  else .ok []

/-- The non-throwing projection of getMockTransactionHistoryJs, under which
the handleToolCall theorems are stated: a thrown TypeError is collapsed to
the empty array.  Those theorems confine their history conclusions to the
two own keys, where no throw is possible and the projection coincides with
the source; on the throwing names the real handleToolCall would propagate
the exception instead. -/
def getMockTransactionHistory (data : MockData) (accountType : String)
    (limit : Option Int) : List MockTransaction :=
  match getMockTransactionHistoryJs data accountType limit with
  | .ok transactions => transactions
  | .typeError => []

/-- ASCII lowercasing of one character, as JS toLowerCase acts on the
ASCII range (the account names the component handles). -/
def lowerChar (c : Char) : Char :=
  if 65 ≤ c.toNat ∧ c.toNat ≤ 90 then Char.ofNat (c.toNat + 32) else c

/-- JS String.prototype.toLowerCase on the ASCII strings this component
handles: lowercase every character. -/
def toLowerCase (s : String) : String := ⟨s.data.map lowerChar⟩

/-- The Accounts state of the Conversation component: checking and savings
balances, initialised to 1000 and 5000. -/
structure Accounts where
  checking : Rat
  savings : Rat
  deriving DecidableEq, Repr

/-- accounts.hasOwnProperty(key) for the Accounts object: exactly the two
keys checking and savings exist. -/
def isAccountKey (key : String) : Prop :=
  key = "checking" ∨ key = "savings"

instance decidableIsAccountKey (key : String) : Decidable (isAccountKey key) := by
  unfold isAccountKey
  infer_instance

/-- accounts[key] for a key of the Accounts object.  The source only indexes
after a hasOwnProperty guard, so the 0 returned for a foreign key is never
observed. -/
def Accounts.getKey (a : Accounts) (key : String) : Rat :=
  if key = "checking" then a.checking
  else if key = "savings" then a.savings
  else 0

/-- Assignment of a computed key in an object literal spread: a foreign key
leaves the record unchanged (unreachable in the guarded source). -/
def Accounts.setKey (a : Accounts) (key : String) (v : Rat) : Accounts :=
  if key = "checking" then { a with checking := v }
  else if key = "savings" then { a with savings := v }
  else a

/-- The spread update passed to setAccounts by the transferFunds branch:
  prev with [fromKey]: prev[fromKey] - amount, [toKey]: prev[toKey] + amount.
Both value expressions read prev, and the two computed-key assignments are
applied in order, so when fromKey = toKey the second overwrites the first. -/
def transferUpdate (prev : Accounts) (fromKey toKey : String) (amount : Rat) :
    Accounts :=
  (prev.setKey fromKey (prev.getKey fromKey - amount)).setKey toKey
    (prev.getKey toKey + amount)

/-- One function call delivered in a toolCall message.  The three known
names carry the args the corresponding branch of handleToolCall reads; the
other constructor stands for a call whose name is none of the three (the
switch default). -/
inductive FunctionCall where
  | getAccountBalance (accountType : String)
  | transferFunds (amount : Rat) (fromAccount : String) (toAccount : String)
  | getTransactionHistory (accountType : String) (limit : Option Int)
  | other (name : String)
  deriving DecidableEq, Repr

/-- fc.name, the string the switch in handleToolCall dispatches on. -/
def FunctionCall.name : FunctionCall → String
  | .getAccountBalance _ => "getAccountBalance"
  | .transferFunds _ _ _ => "transferFunds"
  | .getTransactionHistory _ _ => "getTransactionHistory"
  | .other n => n

/-- The result object handleToolCall builds for one function call, one
constructor per object shape in the source:
- balanceOk b is the object with field balance;
- errorAccountNotFound t is the error object whose message names the
  missing account type t;
- errorInvalidAccount is the error object with message Invalid account
  specified;
- errorInsufficientFunds b is the error object with message Insufficient
  funds and field currentBalance b;
- transferOk f t a n is the success object with fromAccount f, toAccount t,
  amount a and newFromBalance n;
- historyOk k is the success object with transactionsRetrieved k;
- errorUnknownFunction n is the error object whose message names the
  unknown function n. -/
inductive ToolResult where
  | balanceOk (balance : Rat)
  | errorAccountNotFound (accountType : String)
  | errorInvalidAccount
  | errorInsufficientFunds (currentBalance : Rat)
  | transferOk (fromAccount toAccount : String) (amount : Rat)
      (newFromBalance : Rat)
  | historyOk (transactionsRetrieved : Nat)
  | errorUnknownFunction (name : String)
  deriving DecidableEq, Repr

/-- Whether the result object is one of the error shapes (has an error
field). -/
def ToolResult.isError : ToolResult → Bool
  | .errorAccountNotFound _ => true
  | .errorInvalidAccount => true
  | .errorInsufficientFunds _ => true
  | .errorUnknownFunction _ => true
  | .balanceOk _ => false
  | .transferOk _ _ _ _ => false
  | .historyOk _ => false

/-- The component state the banking tool calls read and write: the accounts
balances, the transactions list shown in the history panel, and the
viewingHistory account name. -/
structure BankState where
  accounts : Accounts
  transactions : List MockTransaction
  viewingHistory : Option String
  deriving DecidableEq, Repr

/-- The body of the per-call loop of handleToolCall, for one function call:
it returns the updated component state together with the result object that
is sent back through sendToolResponse.  Branches follow the switch in the
source:
- getAccountBalance lowercases the account type, answers the balance when
  the key exists and the not-found error otherwise;
- transferFunds lowercases both account names, rejects when either key is
  missing, rejects with the insufficient-funds error when the from balance
  is strictly below the amount, and otherwise applies the spread update and
  reports the new from balance computed from the captured accounts;
- getTransactionHistory lowercases the account type, fetches the mock
  history, stores it in transactions, stores the raw requested name in
  viewingHistory and reports how many transactions were retrieved;
- any other name produces the unknown-function error. -/
def handleToolCall (data : MockData) (s : BankState) (fc : FunctionCall) :
    BankState × ToolResult :=
  match fc with
  | .getAccountBalance accountType =>
      let key := toLowerCase accountType
      if isAccountKey key then
        (s, .balanceOk (s.accounts.getKey key))
      else
        (s, .errorAccountNotFound key)
  | .transferFunds amount fromAccount toAccount =>
      let fromKey := toLowerCase fromAccount
      let toKey := toLowerCase toAccount
      if isAccountKey fromKey ∧ isAccountKey toKey then
        if s.accounts.getKey fromKey < amount then
          (s, .errorInsufficientFunds (s.accounts.getKey fromKey))
        else
          ({ s with accounts := transferUpdate s.accounts fromKey toKey amount },
           .transferOk fromKey toKey amount (s.accounts.getKey fromKey - amount))
      else
        (s, .errorInvalidAccount)
  | .getTransactionHistory accountType limit =>
      let key := toLowerCase accountType
      let history := getMockTransactionHistory data key limit
      ({ s with transactions := history, viewingHistory := some accountType },
       .historyOk history.length)
  | .other n => (s, .errorUnknownFunction n)

/-- The transcript-related state touched by handleMessage: the transcript
list and the two accumulator refs for the current input and output
transcriptions. -/
structure TranscriptState where
  transcript : List Message
  currentInput : String
  currentOutput : String
  deriving DecidableEq, Repr

/-- The setTranscript updater used by every transcription branch of
handleMessage: when the transcript has a last entry whose sender matches,
replace that entry by a copy whose text is the accumulated string acc
(prev.slice(0, -1) concatenated with the new last entry); otherwise return
the transcript unchanged. -/
def updateLastEntry (transcript : List Message) (sender : Sender)
    (acc : String) : List Message :=
  match transcript.getLast? with
  | some last =>
      if last.sender = sender then
        transcript.dropLast ++ [{ last with text := acc }]
      else transcript
  | none => transcript

/-- The serverContent fields of a LiveServerMessage that the transcription
logic of handleMessage reads: the optional output and input transcription
chunks and the turnComplete flag. -/
structure ServerContent where
  outputTranscription : Option String
  inputTranscription : Option String
  turnComplete : Bool
  deriving DecidableEq, Repr

/-- The outputTranscription branch of handleMessage: append the chunk text
to the output accumulator, then update the last transcript entry when it is
an agent entry. -/
def applyOutputTranscription (st : TranscriptState) (text : String) :
    TranscriptState :=
  let acc := st.currentOutput ++ text
  { st with currentOutput := acc
            transcript := updateLastEntry st.transcript .agent acc }

/-- The inputTranscription branch of handleMessage: append the chunk text
to the input accumulator, then update the last transcript entry when it is
a user entry. -/
def applyInputTranscription (st : TranscriptState) (text : String) :
    TranscriptState :=
  let acc := st.currentInput ++ text
  { st with currentInput := acc
            transcript := updateLastEntry st.transcript .user acc }

/-- The turnComplete branch of handleMessage: flush each nonblank
accumulator into the matching last transcript entry, then reset both
accumulators to the empty string. -/
def applyTurnComplete (st : TranscriptState) : TranscriptState :=
  let t1 := if st.currentInput.trim ≠ "" then
      updateLastEntry st.transcript .user st.currentInput
    else st.transcript
  let t2 := if st.currentOutput.trim ≠ "" then
      updateLastEntry t1 .agent st.currentOutput
    else t1
  { transcript := t2, currentInput := "", currentOutput := "" }

/-- The transcription part of handleMessage for one serverContent message,
processing the fields in source order: outputTranscription, then
inputTranscription, then turnComplete.  (Tool calls and audio playback are
handled by separate state, modelled elsewhere.) -/
def handleServerContent (st : TranscriptState) (m : ServerContent) :
    TranscriptState :=
  let st1 := match m.outputTranscription with
    | some text => applyOutputTranscription st text
    | none => st
  let st2 := match m.inputTranscription with
    | some text => applyInputTranscription st1 text
    | none => st1
  if m.turnComplete then applyTurnComplete st2 else st2

/-- The status state of the Conversation component. -/
inductive Status where
  | idle
  | connecting
  | connected
  deriving DecidableEq, Repr

/-- The full component state that startConversation and stopConversation
touch: the React state hooks plus the refs, each ref modelled as an Option
of an abstract handle (some () when the ref holds an object, none when it
holds null). -/
structure UIState where
  isRecording : Bool
  status : Status
  error : Option String
  transcript : List Message
  accounts : Accounts
  transactions : List MockTransaction
  viewingHistory : Option String
  sessionPromiseRef : Option Unit
  mediaStreamRef : Option Unit
  scriptProcessorRef : Option Unit
  mediaStreamSourceRef : Option Unit
  inputAudioContextRef : Option Unit
  outputAudioContextRef : Option Unit
  deriving DecidableEq, Repr

/-- stopConversation: sets isRecording false and status idle, closes the
session and nulls its ref, stops the media tracks and nulls the stream ref,
disconnects and nulls the script processor and media-stream-source refs,
closes both audio contexts and nulls their refs.  The close, stop and
disconnect calls act on the external objects only; in this state record
their whole effect is the nulling of the refs. -/
def stopConversation (s : UIState) : UIState :=
  { s with isRecording := false
           status := .idle
           sessionPromiseRef := none
           mediaStreamRef := none
           scriptProcessorRef := none
           mediaStreamSourceRef := none
           inputAudioContextRef := none
           outputAudioContextRef := none }

/-- The statements startConversation runs before the try block: clear the
error, set status connecting, and empty the transcript, transactions and
viewingHistory state. -/
def startConversationSetup (s : UIState) : UIState :=
  { s with error := none
           status := .connecting
           transcript := []
           transactions := []
           viewingHistory := none }

/-- The error message the catch branch of startConversation stores. -/
def micErrorMessage : String :=
  "Could not access the microphone. Please grant permission and try again."

/-- Where the try body of startConversation can throw into the catch:
either the awaited getUserMedia promise rejects before anything in the try
body was assigned, or a later statement throws after the media stream and
the two audio contexts were already assigned (the session-promise
assignment never completes in either case). -/
inductive StartFailure where
  | atGetUserMedia
  | atConnect
  deriving DecidableEq, Repr

/-- The assignments of the try body completed before the throw. -/
def tryBodyUpTo (s : UIState) : StartFailure → UIState
  | .atGetUserMedia => s
  | .atConnect =>
      { s with mediaStreamRef := some ()
               inputAudioContextRef := some ()
               outputAudioContextRef := some () }

/-- startConversation when the try body throws: the setup statements run,
the try body runs up to the throw point, and then the catch branch stores
the microphone error message and resets status to idle.  The catch branch
does nothing else: no ref is cleared and no acquired resource is
released. -/
def startConversationFailing (s : UIState) (p : StartFailure) : UIState :=
  let s2 := tryBodyUpTo (startConversationSetup s) p
  { s2 with error := some micErrorMessage, status := .idle }

/-! Concrete fixtures used by witnesses and counterexamples. -/

/-- The initial accounts state of the component: checking 1000,
savings 5000. -/
def initialAccounts : Accounts := { checking := 1000, savings := 5000 }

/-- The banking state as at component start: initial balances, no
transactions shown, no history account selected. -/
def initialBankState : BankState :=
  { accounts := initialAccounts, transactions := [], viewingHistory := none }

/-- A fixed sample transaction, used to instantiate the randomness
environments in concrete evaluations. -/
def sampleTx : MockTransaction :=
  { id := "t", date := "d", description := "x", amount := 1, kind := .debit }

/-- A constant randomness environment. -/
def sampleEnv : Nat → MockTransaction := fun _ => sampleTx

/-- The mockData object built from the constant environment. -/
def sampleData : MockData := mkMockData sampleEnv sampleEnv

/-! Helper lemmas. -/

theorem toLowerCase_checking : toLowerCase "checking" = "checking" := by decide

theorem toLowerCase_savings : toLowerCase "savings" = "savings" := by decide

theorem generateRandomTransactions_length (env : Nat → MockTransaction)
    (count : Nat) : (generateRandomTransactions env count).length = count := by
  simp [generateRandomTransactions]

theorem jsSliceTo_nonneg {α : Type} (l : List α) (e : Int) (he : 0 ≤ e) :
    jsSliceTo l e = l.take e.toNat := by
  simp [jsSliceTo, not_lt.mpr he]

theorem getMockTransactionHistory_eq (data : MockData) (accountType : String)
    (limit : Option Int) :
    getMockTransactionHistory data accountType limit
      = if accountType = "checking" then
          jsSliceTo data.checking (limit.getD 10)
        else if accountType = "savings" then
          jsSliceTo data.savings (limit.getD 10)
        else [] := by
  by_cases h1 : accountType = "checking"
  · simp [getMockTransactionHistory, getMockTransactionHistoryJs, h1]
  · by_cases h2 : accountType = "savings"
    · simp [getMockTransactionHistory, getMockTransactionHistoryJs, h1, h2]
    · by_cases h3 : accountType ∈ objectPrototypeNames <;>
        simp [getMockTransactionHistory, getMockTransactionHistoryJs,
          h1, h2, h3]

theorem getKey_setKey_same (a : Accounts) (k : String) (h : isAccountKey k)
    (v : Rat) : (a.setKey k v).getKey k = v := by
  rcases h with h | h <;> subst h <;>
    simp +decide [Accounts.getKey, Accounts.setKey]

theorem getKey_setKey_ne (a : Accounts) (k j : String) (hk : isAccountKey k)
    (hj : isAccountKey j) (hne : j ≠ k) (v : Rat) :
    (a.setKey k v).getKey j = a.getKey j := by
  rcases hk with h | h <;> rcases hj with h2 | h2 <;> subst h <;> subst h2 <;>
    first
      | exact absurd rfl hne
      | simp +decide [Accounts.getKey, Accounts.setKey]

theorem handleToolCall_getAccountBalance_state (data : MockData)
    (s : BankState) (accountType : String) :
    (handleToolCall data s (.getAccountBalance accountType)).1 = s := by
  simp only [handleToolCall]
  split <;> rfl

/-! Claim theorems. -/

/-- Claim C1 fails as stated when the two lowercased account names are the
same valid key: transferring 100 from checking to checking on the initial
state satisfies every hypothesis of the claim and returns the success
result with newFromBalance 900, yet the resulting checking balance is 1100
and not the old balance minus 100 plus 100 = 1000 that subtracting and
adding the amount would give. -/
theorem transferFunds_same_account_not_conservative :
    isAccountKey (toLowerCase "checking")
    ∧ (100 : Rat) ≤ initialBankState.accounts.getKey (toLowerCase "checking")
    ∧ (handleToolCall sampleData initialBankState
        (.transferFunds 100 "checking" "checking")).2
      = .transferOk "checking" "checking" 100 900
    ∧ (handleToolCall sampleData initialBankState
        (.transferFunds 100 "checking" "checking")).1.accounts.checking = 1100
    ∧ initialBankState.accounts.checking - 100 + 100 ≠ 1100 := by
  refine ⟨by decide, ?_, ?_, ?_, ?_⟩
  · rw [toLowerCase_checking]
    norm_num +decide [initialBankState, initialAccounts, Accounts.getKey]
  · simp only [handleToolCall, toLowerCase_checking]
    norm_num +decide [isAccountKey, initialBankState, initialAccounts,
      Accounts.getKey, Accounts.setKey, transferUpdate]
  · simp only [handleToolCall, toLowerCase_checking]
    norm_num +decide [isAccountKey, initialBankState, initialAccounts,
      Accounts.getKey, Accounts.setKey, transferUpdate]
  · norm_num [initialBankState, initialAccounts]

/-- Claim C1, amended with the lowercased account names being distinct: for
every transferFunds call whose lowercased fromAccount and toAccount are
distinct valid account keys and whose amount does not exceed the current
from-balance, handleToolCall subtracts the amount from the from-account,
adds it to the to-account, and returns the success result whose
newFromBalance is the old from-balance minus the amount. -/
theorem handleToolCall_transferFunds_distinct_accounts (data : MockData)
    (s : BankState) (amount : Rat) (fromAccount toAccount : String)
    (hfrom : isAccountKey (toLowerCase fromAccount))
    (hto : isAccountKey (toLowerCase toAccount))
    (hne : toLowerCase fromAccount ≠ toLowerCase toAccount)
    (hamt : amount ≤ s.accounts.getKey (toLowerCase fromAccount)) :
    ((handleToolCall data s
        (.transferFunds amount fromAccount toAccount)).1.accounts.getKey
          (toLowerCase fromAccount)
      = s.accounts.getKey (toLowerCase fromAccount) - amount)
    ∧ ((handleToolCall data s
        (.transferFunds amount fromAccount toAccount)).1.accounts.getKey
          (toLowerCase toAccount)
      = s.accounts.getKey (toLowerCase toAccount) + amount)
    ∧ (handleToolCall data s (.transferFunds amount fromAccount toAccount)).2
      = .transferOk (toLowerCase fromAccount) (toLowerCase toAccount) amount
          (s.accounts.getKey (toLowerCase fromAccount) - amount) := by
  have hguard : ¬ s.accounts.getKey (toLowerCase fromAccount) < amount :=
    not_lt.mpr hamt
  simp only [handleToolCall]
  rw [if_pos ⟨hfrom, hto⟩, if_neg hguard]
  refine ⟨?_, ?_, rfl⟩
  · rw [transferUpdate, getKey_setKey_ne _ _ _ hto hfrom hne,
      getKey_setKey_same _ _ hfrom]
  · rw [transferUpdate, getKey_setKey_same _ _ hto]

/-- Witness for the amended C1: transferring 100 from Checking to savings
on the initial state. -/
theorem handleToolCall_transferFunds_distinct_accounts_witness :
    ((handleToolCall sampleData initialBankState
        (.transferFunds 100 "Checking" "savings")).1.accounts.getKey
          (toLowerCase "Checking")
      = initialBankState.accounts.getKey (toLowerCase "Checking") - 100)
    ∧ ((handleToolCall sampleData initialBankState
        (.transferFunds 100 "Checking" "savings")).1.accounts.getKey
          (toLowerCase "savings")
      = initialBankState.accounts.getKey (toLowerCase "savings") + 100)
    ∧ (handleToolCall sampleData initialBankState
        (.transferFunds 100 "Checking" "savings")).2
      = .transferOk (toLowerCase "Checking") (toLowerCase "savings") 100
          (initialBankState.accounts.getKey (toLowerCase "Checking") - 100) :=
  handleToolCall_transferFunds_distinct_accounts sampleData initialBankState
    100 "Checking" "savings" (by decide) (by decide) (by decide)
    (by rw [show toLowerCase "Checking" = "checking" from by decide]
        norm_num +decide [initialBankState, initialAccounts, Accounts.getKey])

/-- Claim C2: a transferFunds call whose lowercased fromAccount and
toAccount coincide on a valid key with balance at least the amount reports
success, and the resulting single account holds its old balance plus the
amount (the credit assignment overwrites the debit in the spread update),
so the checking plus savings total increases by the amount. -/
theorem handleToolCall_transferFunds_same_account (data : MockData)
    (s : BankState) (amount : Rat) (fromAccount toAccount : String)
    (heq : toLowerCase fromAccount = toLowerCase toAccount)
    (hvalid : isAccountKey (toLowerCase fromAccount))
    (hamt : amount ≤ s.accounts.getKey (toLowerCase fromAccount)) :
    ((handleToolCall data s (.transferFunds amount fromAccount toAccount)).2
      = .transferOk (toLowerCase fromAccount) (toLowerCase toAccount) amount
          (s.accounts.getKey (toLowerCase fromAccount) - amount))
    ∧ ((handleToolCall data s
        (.transferFunds amount fromAccount toAccount)).1.accounts.getKey
          (toLowerCase fromAccount)
      = s.accounts.getKey (toLowerCase fromAccount) + amount)
    ∧ ((handleToolCall data s
          (.transferFunds amount fromAccount toAccount)).1.accounts.checking
        + (handleToolCall data s
          (.transferFunds amount fromAccount toAccount)).1.accounts.savings
      = s.accounts.checking + s.accounts.savings + amount) := by
  have hto : isAccountKey (toLowerCase toAccount) := heq ▸ hvalid
  have hguard : ¬ s.accounts.getKey (toLowerCase fromAccount) < amount :=
    not_lt.mpr hamt
  simp only [handleToolCall]
  rw [if_pos ⟨hvalid, hto⟩, if_neg hguard]
  rcases hvalid with h | h <;>
    rw [h] at heq hamt ⊢ <;> rw [← heq] <;>
    refine ⟨rfl, ?_, ?_⟩ <;>
    simp +decide [transferUpdate, Accounts.getKey, Accounts.setKey] <;>
    ring

/-- Witness for C2: transferring 200 from savings to SAVINGS on the
initial state. -/
theorem handleToolCall_transferFunds_same_account_witness :
    ((handleToolCall sampleData initialBankState
        (.transferFunds 200 "savings" "SAVINGS")).2
      = .transferOk (toLowerCase "savings") (toLowerCase "SAVINGS") 200
          (initialBankState.accounts.getKey (toLowerCase "savings") - 200))
    ∧ ((handleToolCall sampleData initialBankState
        (.transferFunds 200 "savings" "SAVINGS")).1.accounts.getKey
          (toLowerCase "savings")
      = initialBankState.accounts.getKey (toLowerCase "savings") + 200)
    ∧ ((handleToolCall sampleData initialBankState
          (.transferFunds 200 "savings" "SAVINGS")).1.accounts.checking
        + (handleToolCall sampleData initialBankState
          (.transferFunds 200 "savings" "SAVINGS")).1.accounts.savings
      = initialBankState.accounts.checking + initialBankState.accounts.savings
        + 200) :=
  handleToolCall_transferFunds_same_account sampleData initialBankState
    200 "savings" "SAVINGS" (by decide) (by decide)
    (by rw [toLowerCase_savings]
        norm_num +decide [initialBankState, initialAccounts, Accounts.getKey])

/-- Claim C3: a getAccountBalance call answers the current balance of the
lowercased account type when that type is checking or savings, answers the
not-found error naming the missing type otherwise, and leaves the accounts
state unchanged in both cases. -/
theorem handleToolCall_getAccountBalance_spec (data : MockData)
    (s : BankState) (accountType : String) :
    (isAccountKey (toLowerCase accountType) →
      (handleToolCall data s (.getAccountBalance accountType)).2
        = .balanceOk (s.accounts.getKey (toLowerCase accountType)))
    ∧ (¬ isAccountKey (toLowerCase accountType) →
      (handleToolCall data s (.getAccountBalance accountType)).2
        = .errorAccountNotFound (toLowerCase accountType))
    ∧ (handleToolCall data s (.getAccountBalance accountType)).1.accounts
      = s.accounts := by
  refine ⟨fun h => ?_, fun h => ?_, ?_⟩
  · simp [handleToolCall, h]
  · simp [handleToolCall, h]
  · rw [handleToolCall_getAccountBalance_state]

/-- Witness for C3 at the concrete call getAccountBalance SAVINGS on the
initial state. -/
theorem handleToolCall_getAccountBalance_spec_witness :
    (handleToolCall sampleData initialBankState
      (.getAccountBalance "SAVINGS")).2
      = .balanceOk (initialBankState.accounts.getKey (toLowerCase "SAVINGS")) :=
  (handleToolCall_getAccountBalance_spec sampleData initialBankState
    "SAVINGS").1 (by decide)

/-- Claim C4: a getTransactionHistory call on a valid lowercased account
type sets viewingHistory to the requested account name, reports in
transactionsRetrieved exactly the length of the stored transactions list,
and sets the transactions state to the prefix of that account's fixed mock
list cut at the limit (defaulting to 10 when absent), whose length is the
minimum of the limit and the stored count (20 for checking, 15 for
savings).  The limit, when present, is taken nonnegative, as a
maximum-number-of-transactions argument is. -/
theorem handleToolCall_getTransactionHistory_spec
    (envC envS : Nat → MockTransaction) (s : BankState)
    (accountType : String) (limit : Option Int)
    (hvalid : isAccountKey (toLowerCase accountType))
    (hnn : ∀ n, limit = some n → 0 ≤ n) :
    ((handleToolCall (mkMockData envC envS) s
        (.getTransactionHistory accountType limit)).1.viewingHistory
      = some accountType)
    ∧ ((handleToolCall (mkMockData envC envS) s
        (.getTransactionHistory accountType limit)).2
      = .historyOk (handleToolCall (mkMockData envC envS) s
          (.getTransactionHistory accountType limit)).1.transactions.length)
    ∧ (toLowerCase accountType = "checking" →
        (handleToolCall (mkMockData envC envS) s
            (.getTransactionHistory accountType limit)).1.transactions
          = (generateRandomTransactions envC 20).take ((limit.getD 10).toNat)
        ∧ (handleToolCall (mkMockData envC envS) s
            (.getTransactionHistory accountType limit)).1.transactions.length
          = min ((limit.getD 10).toNat) 20)
    ∧ (toLowerCase accountType = "savings" →
        (handleToolCall (mkMockData envC envS) s
            (.getTransactionHistory accountType limit)).1.transactions
          = (generateRandomTransactions envS 15).take ((limit.getD 10).toNat)
        ∧ (handleToolCall (mkMockData envC envS) s
            (.getTransactionHistory accountType limit)).1.transactions.length
          = min ((limit.getD 10).toNat) 15) := by
  have hlim : 0 ≤ limit.getD 10 := by
    cases limit with
    | none => decide
    | some n => exact hnn n rfl
  refine ⟨rfl, rfl, fun h => ?_, fun h => ?_⟩
  · simp only [handleToolCall, h, getMockTransactionHistory_eq, mkMockData,
      if_true]
    rw [jsSliceTo_nonneg _ _ hlim]
    refine ⟨rfl, ?_⟩
    rw [List.length_take, generateRandomTransactions_length]
  · simp only [handleToolCall, h, getMockTransactionHistory_eq, mkMockData,
      if_true]
    rw [if_neg (show ¬("savings" : String) = "checking" by decide),
      jsSliceTo_nonneg _ _ hlim]
    refine ⟨rfl, ?_⟩
    rw [List.length_take, generateRandomTransactions_length]

/-- Witness for C4 at the concrete call getTransactionHistory Savings with
limit 6 on the initial state. -/
theorem handleToolCall_getTransactionHistory_spec_witness :
    toLowerCase "Savings" = "savings"
    ∧ ((handleToolCall sampleData initialBankState
        (.getTransactionHistory "Savings" (some 6))).1.viewingHistory
      = some "Savings")
    ∧ ((handleToolCall sampleData initialBankState
        (.getTransactionHistory "Savings" (some 6))).1.transactions
      = (generateRandomTransactions sampleEnv 15).take ((6 : Int).toNat)
      ∧ (handleToolCall sampleData initialBankState
        (.getTransactionHistory "Savings" (some 6))).1.transactions.length
      = min ((6 : Int).toNat) 15) := by
  have h := handleToolCall_getTransactionHistory_spec sampleEnv sampleEnv
    initialBankState "Savings" (some 6) (by decide)
    (fun n hn => by cases hn; decide)
  exact ⟨by decide, h.1, by simpa using h.2.2.2 (by decide)⟩

/-- Claim C5: a transferFunds call produces an error result exactly when
one of the lowercased account names is not a valid key or the from-balance
is strictly below the amount, and every error leaves the whole banking
state unchanged; a transfer of the exact balance is not an error. -/
theorem handleToolCall_transferFunds_error_iff (data : MockData)
    (s : BankState) (amount : Rat) (fromAccount toAccount : String) :
    ((handleToolCall data s
        (.transferFunds amount fromAccount toAccount)).2.isError = true
      ↔ ¬ isAccountKey (toLowerCase fromAccount)
        ∨ ¬ isAccountKey (toLowerCase toAccount)
        ∨ s.accounts.getKey (toLowerCase fromAccount) < amount)
    ∧ ((handleToolCall data s
        (.transferFunds amount fromAccount toAccount)).2.isError = true →
      (handleToolCall data s (.transferFunds amount fromAccount toAccount)).1
        = s) := by
  simp only [handleToolCall]
  by_cases hv : isAccountKey (toLowerCase fromAccount)
    ∧ isAccountKey (toLowerCase toAccount)
  · rw [if_pos hv]
    by_cases hlt : s.accounts.getKey (toLowerCase fromAccount) < amount
    · rw [if_pos hlt]
      simp [ToolResult.isError, hlt]
    · rw [if_neg hlt]
      simp [ToolResult.isError, hv.1, hv.2, hlt]
  · rw [if_neg hv]
    simp only [ToolResult.isError, true_iff, forall_const]
    refine ⟨?_, trivial⟩
    rcases not_and_or.mp hv with h | h
    · exact Or.inl h
    · exact Or.inr (Or.inl h)

/-- Witness for C5: a transfer to the unknown account crypto is an error
and leaves the state unchanged, shown through the two components of the
theorem at that concrete call. -/
theorem handleToolCall_transferFunds_error_iff_witness :
    ((handleToolCall sampleData initialBankState
        (.transferFunds 50 "checking" "crypto")).2.isError = true)
    ∧ (handleToolCall sampleData initialBankState
        (.transferFunds 50 "checking" "crypto")).1 = initialBankState := by
  have h := handleToolCall_transferFunds_error_iff sampleData initialBankState
    50 "checking" "crypto"
  have herr : (handleToolCall sampleData initialBankState
      (.transferFunds 50 "checking" "crypto")).2.isError = true :=
    h.1.mpr (Or.inr (Or.inl (by decide)))
  exact ⟨herr, h.2 herr⟩

/-- Claim C6: a function call whose name is none of the three known
operations is answered with the unknown-function error naming it and
changes none of the accounts, transactions or viewingHistory state; and
any call that does change the banking state bears one of the three known
names. -/
theorem handleToolCall_unknown_function_spec (data : MockData)
    (s : BankState) (n : String)
    (h : n ≠ "getAccountBalance" ∧ n ≠ "transferFunds"
      ∧ n ≠ "getTransactionHistory") :
    (handleToolCall data s (.other n)).2 = .errorUnknownFunction n
    ∧ (handleToolCall data s (.other n)).1 = s
    ∧ ∀ fc : FunctionCall, (handleToolCall data s fc).1 ≠ s →
        fc.name = "getAccountBalance" ∨ fc.name = "transferFunds"
          ∨ fc.name = "getTransactionHistory" := by
  refine ⟨rfl, rfl, fun fc hfc => ?_⟩
  cases fc with
  | getAccountBalance a =>
      exact absurd (handleToolCall_getAccountBalance_state data s a) hfc
  | transferFunds amount f t => exact Or.inr (Or.inl rfl)
  | getTransactionHistory a l => exact Or.inr (Or.inr rfl)
  | other m => exact absurd rfl hfc

/-- Witness for C6 at the concrete unknown name closeAccount. -/
theorem handleToolCall_unknown_function_spec_witness :
    (handleToolCall sampleData initialBankState (.other "closeAccount")).2
      = .errorUnknownFunction "closeAccount"
    ∧ (handleToolCall sampleData initialBankState (.other "closeAccount")).1
      = initialBankState :=
  ⟨(handleToolCall_unknown_function_spec sampleData initialBankState
      "closeAccount" (by decide)).1,
   (handleToolCall_unknown_function_spec sampleData initialBankState
      "closeAccount" (by decide)).2.1⟩

/-- Claim C10 fails as stated: the account type constructor is outside the
two valid keys, yet getMockTransactionHistory does not return the empty
array there — indexing mockData with constructor yields the inherited
non-nullish Object.prototype value, the optional chain proceeds, and
calling its undefined slice member throws a TypeError. -/
theorem getMockTransactionHistory_throws_on_constructor :
    ¬ isAccountKey "constructor"
    ∧ getMockTransactionHistoryJs sampleData "constructor" (some 5)
      = .typeError
    ∧ getMockTransactionHistoryJs sampleData "constructor" (some 5)
      ≠ .ok [] := by decide

/-- Claim C10, amended: getMockTransactionHistory is not total.  An
account type outside checking and savings returns the empty array when it
is not an inherited Object.prototype property name, and throws a TypeError
when it is; a valid account type never throws, and with a present
nonnegative limit the returned list has at most limit elements and at most
the stored count (20 for checking, 15 for savings); an absent limit
behaves as the default limit 10. -/
theorem getMockTransactionHistory_total_amended
    (envC envS : Nat → MockTransaction) (accountType : String)
    (limit : Option Int) :
    (¬ isAccountKey accountType → accountType ∉ objectPrototypeNames →
      getMockTransactionHistoryJs (mkMockData envC envS) accountType limit
        = .ok [])
    ∧ (accountType ∈ objectPrototypeNames →
      getMockTransactionHistoryJs (mkMockData envC envS) accountType limit
        = .typeError)
    ∧ (isAccountKey accountType →
      getMockTransactionHistoryJs (mkMockData envC envS) accountType limit
        = .ok (getMockTransactionHistory (mkMockData envC envS) accountType
            limit))
    ∧ (∀ n, limit = some n → 0 ≤ n →
        (getMockTransactionHistory (mkMockData envC envS) accountType
          (some n)).length ≤ n.toNat
        ∧ (accountType = "checking" →
            (getMockTransactionHistory (mkMockData envC envS) accountType
              (some n)).length ≤ 20)
        ∧ (accountType = "savings" →
            (getMockTransactionHistory (mkMockData envC envS) accountType
              (some n)).length ≤ 15))
    ∧ (getMockTransactionHistoryJs (mkMockData envC envS) accountType none
      = getMockTransactionHistoryJs (mkMockData envC envS) accountType
          (some 10)) := by
  refine ⟨fun hnv hnp => ?_, fun hmem => ?_, fun hv => ?_,
    fun n hn hnn => ?_, rfl⟩
  · rw [getMockTransactionHistoryJs,
      if_neg (fun hc => hnv (Or.inl hc)),
      if_neg (fun hs => hnv (Or.inr hs)), if_neg hnp]
  · simp only [objectPrototypeNames, List.mem_cons,
      List.not_mem_nil, or_false] at hmem
    rcases hmem with rfl | rfl | rfl | rfl | rfl | rfl | rfl | rfl | rfl
      | rfl | rfl | rfl <;> rfl
  · rcases hv with h | h <;> subst h <;> rfl
  · have hslice : ∀ l : List MockTransaction,
        (jsSliceTo l ((some n : Option Int).getD 10)).length ≤ n.toNat ∧
        (jsSliceTo l ((some n : Option Int).getD 10)).length ≤ l.length := by
      intro l
      rw [Option.getD_some, jsSliceTo_nonneg _ _ hnn, List.length_take]
      exact ⟨min_le_left _ _, min_le_right _ _⟩
    refine ⟨?_, fun hc => ?_, fun hs => ?_⟩
    · rw [getMockTransactionHistory_eq]
      split
      · exact (hslice _).1
      · split
        · exact (hslice _).1
        · simp
    · rw [getMockTransactionHistory_eq, if_pos hc]
      have := (hslice (mkMockData envC envS).checking).2
      rwa [show (mkMockData envC envS).checking.length = 20 from
        generateRandomTransactions_length envC 20] at this
    · subst hs
      rw [getMockTransactionHistory_eq, if_neg (by decide), if_pos rfl]
      have := (hslice (mkMockData envC envS).savings).2
      rwa [show (mkMockData envC envS).savings.length = 15 from
        generateRandomTransactions_length envS 15] at this

/-- Witness for the amended C10: the unknown type crypto yields the empty
array, the inherited name toString throws, and a checking query with
limit 7 stays within both length bounds. -/
theorem getMockTransactionHistory_total_amended_witness :
    getMockTransactionHistoryJs sampleData "crypto" (some 5) = .ok []
    ∧ getMockTransactionHistoryJs sampleData "toString" (some 5) = .typeError
    ∧ ((getMockTransactionHistory sampleData "checking" (some 7)).length
        ≤ (7 : Int).toNat
      ∧ (getMockTransactionHistory sampleData "checking" (some 7)).length
        ≤ 20) := by
  have h1 := (getMockTransactionHistory_total_amended sampleEnv sampleEnv
    "crypto" (some 5)).1 (by decide) (by decide)
  have hm := (getMockTransactionHistory_total_amended sampleEnv sampleEnv
    "toString" (some 5)).2.1 (by decide)
  have h2 := (getMockTransactionHistory_total_amended sampleEnv sampleEnv
    "checking" (some 7)).2.2.2.1 7 rfl (by decide)
  exact ⟨h1, hm, h2.1, h2.2.1 rfl⟩

/-- A concrete UI state used by the lifecycle witnesses: some session is
active and some transcript content exists. -/
def sampleUIState : UIState :=
  { isRecording := true
    status := .connected
    error := none
    transcript := [{ id := "1", sender := .user, text := "hi" }]
    accounts := initialAccounts
    transactions := [sampleTx]
    viewingHistory := some "checking"
    sessionPromiseRef := some ()
    mediaStreamRef := some ()
    scriptProcessorRef := some ()
    mediaStreamSourceRef := some ()
    inputAudioContextRef := some ()
    outputAudioContextRef := some () }

/-- Claim C7: when the try body of startConversation throws, the catch
branch stores the microphone error message and resets status to idle, and
nothing else is recovered: isRecording and the accounts are untouched, the
transcript, transactions and viewingHistory stay as the pre-try setup
emptied them, the session ref keeps its prior value, and any refs the try
body assigned before throwing (the media stream and the two audio contexts
when the throw happens after stream acquisition) remain assigned rather
than being released. -/
theorem startConversation_catch_spec (s : UIState) (p : StartFailure) :
    (startConversationFailing s p).error = some micErrorMessage
    ∧ (startConversationFailing s p).status = .idle
    ∧ (startConversationFailing s p).isRecording = s.isRecording
    ∧ (startConversationFailing s p).accounts = s.accounts
    ∧ (startConversationFailing s p).transcript = []
    ∧ (startConversationFailing s p).transactions = []
    ∧ (startConversationFailing s p).viewingHistory = none
    ∧ (startConversationFailing s p).sessionPromiseRef = s.sessionPromiseRef
    ∧ (startConversationFailing s p).scriptProcessorRef = s.scriptProcessorRef
    ∧ (startConversationFailing s p).mediaStreamSourceRef
      = s.mediaStreamSourceRef
    ∧ (p = .atGetUserMedia →
        (startConversationFailing s p).mediaStreamRef = s.mediaStreamRef
        ∧ (startConversationFailing s p).inputAudioContextRef
          = s.inputAudioContextRef
        ∧ (startConversationFailing s p).outputAudioContextRef
          = s.outputAudioContextRef)
    ∧ (p = .atConnect →
        (startConversationFailing s p).mediaStreamRef = some ()
        ∧ (startConversationFailing s p).inputAudioContextRef = some ()
        ∧ (startConversationFailing s p).outputAudioContextRef = some ()) := by
  cases p <;>
    simp [startConversationFailing, startConversationSetup, tryBodyUpTo]

/-- Witness for C7: a failure after stream acquisition on a running state
leaves the acquired media stream and audio contexts assigned. -/
theorem startConversation_catch_spec_witness :
    (startConversationFailing sampleUIState .atConnect).mediaStreamRef
      = some ()
    ∧ (startConversationFailing sampleUIState .atConnect).inputAudioContextRef
      = some ()
    ∧ (startConversationFailing sampleUIState
        .atConnect).outputAudioContextRef = some () := by
  obtain ⟨-, -, -, -, -, -, -, -, -, -, -, h⟩ :=
    startConversation_catch_spec sampleUIState .atConnect
  exact h rfl

/-- Claim C8: after stopConversation, whatever the prior state, isRecording
is false, status is idle, and the session, media-stream, script-processor,
media-stream-source and both audio-context refs are null, while the
transcript, accounts, transactions, viewingHistory and error state are
unchanged. -/
theorem stopConversation_spec (s : UIState) :
    (stopConversation s).isRecording = false
    ∧ (stopConversation s).status = .idle
    ∧ (stopConversation s).sessionPromiseRef = none
    ∧ (stopConversation s).mediaStreamRef = none
    ∧ (stopConversation s).scriptProcessorRef = none
    ∧ (stopConversation s).mediaStreamSourceRef = none
    ∧ (stopConversation s).inputAudioContextRef = none
    ∧ (stopConversation s).outputAudioContextRef = none
    ∧ (stopConversation s).transcript = s.transcript
    ∧ (stopConversation s).accounts = s.accounts
    ∧ (stopConversation s).transactions = s.transactions
    ∧ (stopConversation s).viewingHistory = s.viewingHistory
    ∧ (stopConversation s).error = s.error := by
  simp [stopConversation]

/-- Claim C9: an output or input transcription chunk appends its text to
the corresponding accumulator; when the last transcript entry's sender
matches (agent for output, user for input), that entry's text becomes the
accumulated string while every earlier entry is kept, and when the last
entry's sender does not match, or the transcript is empty, the transcript
is unchanged; a turnComplete message resets both accumulators to the empty
string. -/
theorem handleMessage_transcription_spec (st : TranscriptState)
    (text : String) :
    ((handleServerContent st
        { outputTranscription := some text, inputTranscription := none,
          turnComplete := false }).currentOutput
      = st.currentOutput ++ text)
    ∧ ((handleServerContent st
        { outputTranscription := none, inputTranscription := some text,
          turnComplete := false }).currentInput
      = st.currentInput ++ text)
    ∧ (∀ pre last, st.transcript = pre ++ [last] → last.sender = .agent →
        (handleServerContent st
          { outputTranscription := some text, inputTranscription := none,
            turnComplete := false }).transcript
          = pre ++ [{ last with text := st.currentOutput ++ text }])
    ∧ (∀ pre last, st.transcript = pre ++ [last] → last.sender ≠ .agent →
        (handleServerContent st
          { outputTranscription := some text, inputTranscription := none,
            turnComplete := false }).transcript = st.transcript)
    ∧ (∀ pre last, st.transcript = pre ++ [last] → last.sender = .user →
        (handleServerContent st
          { outputTranscription := none, inputTranscription := some text,
            turnComplete := false }).transcript
          = pre ++ [{ last with text := st.currentInput ++ text }])
    ∧ (∀ pre last, st.transcript = pre ++ [last] → last.sender ≠ .user →
        (handleServerContent st
          { outputTranscription := none, inputTranscription := some text,
            turnComplete := false }).transcript = st.transcript)
    ∧ (st.transcript = [] →
        (handleServerContent st
          { outputTranscription := some text, inputTranscription := none,
            turnComplete := false }).transcript = []
        ∧ (handleServerContent st
          { outputTranscription := none, inputTranscription := some text,
            turnComplete := false }).transcript = [])
    ∧ ((handleServerContent st
        { outputTranscription := none, inputTranscription := none,
          turnComplete := true }).currentInput = ""
      ∧ (handleServerContent st
        { outputTranscription := none, inputTranscription := none,
          turnComplete := true }).currentOutput = "") := by
  refine ⟨rfl, rfl, fun pre last hpre hs => ?_, fun pre last hpre hs => ?_,
    fun pre last hpre hs => ?_, fun pre last hpre hs => ?_,
    fun hnil => ?_, ?_, ?_⟩
  · simp only [handleServerContent, applyOutputTranscription,
      updateLastEntry, hpre, List.getLast?_concat, List.dropLast_concat, hs,
      if_true, if_pos rfl]
    rfl
  · simp only [handleServerContent, applyOutputTranscription,
      updateLastEntry, hpre, List.getLast?_concat, List.dropLast_concat]
    rw [if_neg hs]
    rfl
  · simp only [handleServerContent, applyInputTranscription,
      updateLastEntry, hpre, List.getLast?_concat, List.dropLast_concat, hs,
      if_true, if_pos rfl]
    rfl
  · simp only [handleServerContent, applyInputTranscription,
      updateLastEntry, hpre, List.getLast?_concat, List.dropLast_concat]
    rw [if_neg hs]
    rfl
  · constructor <;>
      simp only [handleServerContent, applyOutputTranscription,
        applyInputTranscription, updateLastEntry, hnil, List.getLast?_nil] <;>
      rfl
  · simp [handleServerContent, applyTurnComplete]
  · simp [handleServerContent, applyTurnComplete]

/-- A concrete user transcript entry for the C9 witness. -/
def sampleUserMsg : Message := { id := "1", sender := .user, text := "hi" }

/-- A concrete agent transcript entry for the C9 witness. -/
def sampleAgentMsg : Message := { id := "2", sender := .agent, text := "ok" }

/-- A concrete transcript state for the C9 witness: the two entries above
with matching accumulators. -/
def sampleTranscriptState : TranscriptState :=
  { transcript := [sampleUserMsg, sampleAgentMsg],
    currentInput := "hi", currentOutput := "ok" }

/-- Witness for C9: appending an exclamation mark to the agent entry of a
two-entry transcript replaces only that last entry. -/
theorem handleMessage_transcription_spec_witness :
    (handleServerContent sampleTranscriptState
      { outputTranscription := some "!", inputTranscription := none,
        turnComplete := false }).transcript
      = [sampleUserMsg]
        ++ [{ sampleAgentMsg with
              text := sampleTranscriptState.currentOutput ++ "!" }] :=
  (handleMessage_transcription_spec sampleTranscriptState "!").2.2.1
    [sampleUserMsg] sampleAgentMsg rfl rfl

end VoiceAgent
